import Mathlib

/-!
Verification of the array-job scheduler core of the `chemsmart` repository
(`chemsmart/jobs/scheduler.py`).

The Python module defines an abstract `ArrayScheduler` with three concrete
backends (`SLURMArrayScheduler`, `PBSArrayScheduler`, `LSFArrayScheduler`).
We embed the data model and the string-producing operations shallowly:

* Python `Optional[int]` / `Optional[str]` fields become `Option Int` /
  `Option String`; Python truthiness tests (`if self.max_parallel and ...`,
  `if self.server.queue_name:`) are modelled by explicit truthiness
  functions (`0`, `None` and `""` are falsy).
* `f`-string interpolation of a possibly-`None` value renders `"None"`,
  modelled by `pyShow`.
* File handles accumulate text; we model each `_write_*` method as a
  `String`-valued function and the file system as an association list.
* `subprocess.run` is modelled by an explicit outcome value passed to
  `submit`.

Shell scripts contain many brace characters; inside Lean string literals we
write them with the hex escapes `\x7b` (left brace) and `\x7d` (right brace).
-/

namespace Chemsmart

/-- Python truthiness (`bool(x)`) for whitespace characters recognised by
`str.strip()` / `str.split()`. -/
def isPySpace (c : Char) : Bool :=
  c = ' ' || c = '\t' || c = '\n' || c = '\r' || c = '\x0b' || c = '\x0c'

/-- Python `str.strip()`: remove leading and trailing whitespace. -/
def pyStrip (s : String) : String :=
  ⟨((s.data.dropWhile isPySpace).reverse.dropWhile isPySpace).reverse⟩

/-- Python `f"{x}"` for an `Optional[str]` value: `None` renders as the
four-character string `"None"`. -/
def pyShow : Option String → String
  | none => "None"
  | some s => s

/-- Python truthiness of an `Optional[str]` value (`None` and `""` falsy). -/
def truthyStr : Option String → Bool
  | none => false
  | some s => !s.isEmpty

/-- Python truthiness of an `Optional[int]` value (`None` and `0` falsy). -/
def truthyInt : Option Int → Bool
  | none => false
  | some n => n != 0

/-- Python truthiness of an optional natural (`None` and `0` falsy). -/
def truthyNat : Option Nat → Bool
  | none => false
  | some n => n != 0

/-- Substring containment on character lists (Python `needle in hay`). -/
def subList (hay needle : List Char) : Bool :=
  hay.tails.any (fun t => needle.isPrefixOf t)

/-- Python `needle in hay` for strings. -/
def strContains (hay needle : String) : Bool :=
  subList hay.data needle.data

/-- Python `hay.index(c)` for a single character `c` known to occur
(returns the index of the first occurrence; `List.findIdx` returns the
length when absent, which the callers guard against). -/
def pyIndexOf (l : List Char) (c : Char) : Nat :=
  l.findIdx (fun x => x = c)

/-- Python slice `s[a:b]` for `0 ≤ a, b` (clamping semantics). -/
def pySlice (s : String) (a b : Nat) : String :=
  ⟨(s.data.take b).drop a⟩

/-- Python `str.split()` (split on whitespace runs, dropping empty tokens):
auxiliary accumulator version. -/
def wsSplitAux : List Char → List Char → List (List Char)
  | [], acc => if acc.isEmpty then [] else [acc.reverse]
  | c :: rest, acc =>
    if isPySpace c then
      if acc.isEmpty then wsSplitAux rest [] else acc.reverse :: wsSplitAux rest []
    else wsSplitAux rest (c :: acc)

/-- Python `str.split()` on a string. -/
def pySplitWs (s : String) : List String :=
  (wsSplitAux s.data []).map (fun l => ⟨l⟩)

/-- Python `repr` of a list of strings, as rendered by an f-string
(a bracketed, comma-separated list of single-quoted names). -/
def pyReprList (l : List String) : String :=
  "[" ++ String.intercalate ", " (l.map (fun s => "\x27" ++ s ++ "\x27")) ++ "]"

/-! ## Data model -/

/-- A job handle: the scheduler only ever reads its `label`. -/
structure Job where
  label : String
deriving DecidableEq, Repr

/-- Server resource profile (`self.server`), as read by the directive
writers: `num_cores`, `num_gpus`, `mem_gb`, `queue_name`, `num_hours`. -/
structure Server where
  num_cores : Nat
  num_gpus : Nat
  mem_gb : Nat
  queue_name : Option String
  num_hours : Option Nat
deriving DecidableEq, Repr

/-- The module-global `user_settings.data` dictionary, of which only the
`"PROJECT"` and `"EMAIL"` keys are read (via `dict.get`, which yields
`None` when absent). -/
structure UserSettings where
  project : Option String
  email : Option String
deriving DecidableEq, Repr

/-- The three registered concrete scheduler families. -/
inductive SchedulerType
  | SLURM
  | PBS
  | LSF
deriving DecidableEq, Repr

/-- State of an `ArrayScheduler` instance: the concrete class (`stype`),
plus the constructor arguments `jobs`, `max_parallel`, `server`,
`job_name`. -/
structure Scheduler where
  stype : SchedulerType
  jobs : List Job
  max_parallel : Option Int
  server : Server
  job_name : Option String
deriving DecidableEq, Repr

namespace Scheduler

/-- `ArrayScheduler.num_jobs`. -/
def num_jobs (s : Scheduler) : Nat := s.jobs.length

/-- `ArrayScheduler.job_labels`. -/
def job_labels (s : Scheduler) : List String := s.jobs.map Job.label

end Scheduler

/-- The class attribute `NAME` of each concrete scheduler class. -/
def NAME : SchedulerType → String
  | .SLURM => "SLURM"
  | .PBS => "PBS"
  | .LSF => "LSF"

/-- The `array_task_id_var` property of each backend. -/
def array_task_id_var : SchedulerType → String
  | .SLURM => "SLURM_ARRAY_TASK_ID"
  | .PBS => "PBS_ARRAY_INDEX"
  | .LSF => "LSB_JOBINDEX"

/-- The `array_spec` property.  Each backend returns `""` for zero jobs, a
single-element form for one job, and otherwise a range; the throttle
suffix `%{max_parallel}` is appended when
`self.max_parallel and self.max_parallel < self.num_jobs` is truthy
(so `max_parallel = None` and `max_parallel = 0` never produce it). -/
def array_spec (s : Scheduler) : String :=
  match s.stype with
  | .SLURM =>
    if s.num_jobs = 0 then ""
    else if s.num_jobs = 1 then "0-0"
    else
      let array_range := "0-" ++ toString (s.num_jobs - 1)
      if truthyInt s.max_parallel && decide (s.max_parallel.getD 0 < (s.num_jobs : Int)) then
        array_range ++ "%" ++ toString (s.max_parallel.getD 0)
      else array_range
  | .PBS =>
    if s.num_jobs = 0 then ""
    else if s.num_jobs = 1 then "0"
    else
      let array_range := "0-" ++ toString (s.num_jobs - 1)
      if truthyInt s.max_parallel && decide (s.max_parallel.getD 0 < (s.num_jobs : Int)) then
        array_range ++ "%" ++ toString (s.max_parallel.getD 0)
      else array_range
  | .LSF =>
    if s.num_jobs = 0 then ""
    else if s.num_jobs = 1 then "[1]"
    else
      let array_range := "[1-" ++ toString s.num_jobs ++ "]"
      if truthyInt s.max_parallel && decide (s.max_parallel.getD 0 < (s.num_jobs : Int)) then
        array_range ++ "%" ++ toString (s.max_parallel.getD 0)
      else array_range

/-- `ArrayScheduler.submit_script`: filename for the submission script
(a non-`None` `job_name` is interpolated even when empty). -/
def submit_script (s : Scheduler) : String :=
  match s.job_name with
  | some n => "chemsmart_array_sub_" ++ n ++ ".sh"
  | none => "chemsmart_array_sub.sh"

/-! ## Script rendering (the `_write_*` methods, as string producers) -/

/-- `_write_bash_header`. -/
def bash_header : String := "#!/bin/bash\n\n"

/-- One conditional `f.write(line)` inside a directive writer. -/
def optLine (b : Bool) (line : String) : String :=
  if b then line else ""

/-- `_write_scheduler_options` of each backend (`user_settings is not None`
is always true, so the project/email conditionals are modelled directly). -/
def scheduler_options (us : UserSettings) (s : Scheduler) : String :=
  match s.stype with
  | .SLURM =>
    "#SBATCH --job-name=" ++ pyShow s.job_name ++ "\n" ++
    "#SBATCH --array=" ++ array_spec s ++ "\n" ++
    "#SBATCH --output=" ++ pyShow s.job_name ++ "_%A_%a.slurmout\n" ++
    "#SBATCH --error=" ++ pyShow s.job_name ++ "_%A_%a.slurmerr\n" ++
    optLine (s.server.num_gpus != 0)
      ("#SBATCH --gres=gpu:" ++ toString s.server.num_gpus ++ "\n") ++
    "#SBATCH --nodes=1 --ntasks-per-node=" ++ toString s.server.num_cores ++
      " --mem=" ++ toString s.server.mem_gb ++ "G\n" ++
    optLine (truthyStr s.server.queue_name)
      ("#SBATCH --partition=" ++ pyShow s.server.queue_name ++ "\n") ++
    optLine (truthyNat s.server.num_hours)
      ("#SBATCH --time=" ++ toString (s.server.num_hours.getD 0) ++ ":00:00\n") ++
    optLine (truthyStr us.project)
      ("#SBATCH --account=" ++ pyShow us.project ++ "\n") ++
    optLine (truthyStr us.email)
      ("#SBATCH --mail-user=" ++ pyShow us.email ++ "\n" ++
       "#SBATCH --mail-type=END,FAIL\n") ++
    "\n" ++ "\n"
  | .PBS =>
    "#PBS -N " ++ pyShow s.job_name ++ "\n" ++
    "#PBS -J " ++ array_spec s ++ "\n" ++
    "#PBS -o " ++ pyShow s.job_name ++ ".pbsout\n" ++
    "#PBS -e " ++ pyShow s.job_name ++ ".pbserr\n" ++
    optLine (0 < s.server.num_gpus)
      ("#PBS -l gpus=" ++ toString s.server.num_gpus ++ "\n") ++
    "#PBS -l select=1:ncpus=" ++ toString s.server.num_cores ++
      ":mpiprocs=" ++ toString s.server.num_cores ++
      ":mem=" ++ toString s.server.mem_gb ++ "G\n" ++
    optLine (truthyStr s.server.queue_name)
      ("#PBS -q " ++ pyShow s.server.queue_name ++ "\n") ++
    optLine (truthyNat s.server.num_hours)
      ("#PBS -l walltime=" ++ toString (s.server.num_hours.getD 0) ++ ":00:00\n") ++
    optLine (truthyStr us.project)
      ("#PBS -P " ++ pyShow us.project ++ "\n") ++
    optLine (truthyStr us.email)
      ("#PBS -M " ++ pyShow us.email ++ "\n" ++ "#PBS -m abe\n") ++
    "\n" ++ "\n"
  | .LSF =>
    "#BSUB -J " ++ pyShow s.job_name ++ array_spec s ++ "\n" ++
    "#BSUB -o " ++ pyShow s.job_name ++ "_%I.bsubout\n" ++
    "#BSUB -e " ++ pyShow s.job_name ++ "_%I.bsuberr\n" ++
    "#BSUB -n " ++ toString s.server.num_cores ++ "\n" ++
    "#BSUB -R \"rusage[mem=" ++ toString s.server.mem_gb ++ "G]\"\n" ++
    optLine (s.server.num_gpus != 0)
      ("#BSUB -R \"select[ngpus>0] rusage[ngpus_excl_p=" ++
       toString s.server.num_gpus ++ "]\"\n") ++
    optLine (truthyStr s.server.queue_name)
      ("#BSUB -q " ++ pyShow s.server.queue_name ++ "\n") ++
    optLine (truthyNat s.server.num_hours)
      ("#BSUB -W " ++ toString (s.server.num_hours.getD 0) ++ ":00\n") ++
    optLine (truthyStr us.project)
      ("#BSUB -P " ++ pyShow us.project ++ "\n") ++
    optLine (truthyStr us.email)
      ("#BSUB -u " ++ pyShow us.email ++ "\n" ++ "#BSUB -N\n") ++
    "\n" ++ "\n"

/-- `_write_change_to_job_directory` of each backend. -/
def change_to_job_directory : SchedulerType → String
  | .SLURM => "cd $SLURM_SUBMIT_DIR\n\n"
  | .PBS => "cd $PBS_O_WORKDIR\n\n"
  | .LSF => "cd $LS_SUBCWD\n\n"

/-- One entry of the `JOBS=( ... )` table: `    "{label}"\n`. -/
def jobEntry (label : String) : String :=
  "    \"" ++ label ++ "\"\n"

/-- `_write_job_array_mapping` (shared by all backends). -/
def job_array_mapping (s : Scheduler) : String :=
  "# Job labels array\n" ++ "JOBS=(\n" ++
  String.join (s.job_labels.map jobEntry) ++
  ")\n\n"

/-- `_write_job_selection`: the base-class version (SLURM, PBS) indexes
`JOBS` with the raw task-id variable; the LSF override first computes
`JOB_INDEX = LSB_JOBINDEX - 1`. -/
def job_selection (st : SchedulerType) : String :=
  match st with
  | .LSF =>
    "# Get current job label (LSF is 1-indexed)\n" ++
    "JOB_INDEX=$(( $LSB_JOBINDEX - 1 ))\n" ++
    "JOB_LABEL=$\x7bJOBS[$JOB_INDEX]\x7d\n" ++
    "echo \"Running job: $JOB_LABEL (array task $LSB_JOBINDEX)\"\n\n"
  | _ =>
    "# Get current job label\n" ++
    "JOB_LABEL=$\x7bJOBS[$" ++ array_task_id_var st ++ "]\x7d\n" ++
    "echo \"Running job: $JOB_LABEL (array task $" ++ array_task_id_var st ++ ")\"\n\n"

/-- `_write_job_execution` (shared by all backends). -/
def job_execution : String :=
  "# Execute the job\n" ++
  "if [ -f \"chemsmart_run_$\x7bJOB_LABEL\x7d.py\" ]; then\n" ++
  "    chmod +x chemsmart_run_$\x7bJOB_LABEL\x7d.py\n" ++
  "    python chemsmart_run_$\x7bJOB_LABEL\x7d.py\n" ++
  "else\n" ++
  "    echo \"Error: Run script not found for job $JOB_LABEL\"\n" ++
  "    exit 1\n" ++
  "fi\n\n" ++
  "wait\n"

/-- `ArrayScheduler.render_script`: build the script in an in-memory
buffer by calling the six writers in order and return the buffer. -/
def render_script (us : UserSettings) (s : Scheduler) : String :=
  bash_header ++
  scheduler_options us s ++
  change_to_job_directory s.stype ++
  job_array_mapping s ++
  job_selection s.stype ++
  job_execution

/-- The text produced inside `with open(...)` by `ArrayScheduler._write_script`:
the same six writers called in the same order on the file handle, modelled
as sequential appends to the written content. -/
def write_script_content (us : UserSettings) (s : Scheduler) : String :=
  let buf := ""
  let buf := buf ++ bash_header
  let buf := buf ++ scheduler_options us s
  let buf := buf ++ change_to_job_directory s.stype
  let buf := buf ++ job_array_mapping s
  let buf := buf ++ job_selection s.stype
  let buf := buf ++ job_execution
  buf

/-! ## File system model -/

/-- A file system: most recent write first. -/
def FS := List (String × String)

/-- Write (create or overwrite) a file. -/
def writeFile (fs : FS) (path content : String) : FS :=
  (path, content) :: fs

/-- Read a file back; `none` when absent. -/
def readFile (fs : FS) (path : String) : Option String :=
  (List.find? (fun e => e.1 = path) fs).map (fun e => e.2)

/-- `ArrayScheduler._write_script`: open `self.submit_script` and write the
complete script (used by `submit`). -/
def write_script_action (us : UserSettings) (s : Scheduler) (fs : FS) : FS :=
  writeFile fs (submit_script s) (write_script_content us s)

/-- `ArrayScheduler.write_script(directory)`: compute the target path,
write the output of `render_script()` there, and return the path. -/
def write_script (us : UserSettings) (s : Scheduler)
    (directory : Option String) (fs : FS) : FS × String :=
  let script_path :=
    match directory with
    | none => submit_script s
    | some d => d ++ "/" ++ submit_script s
  (writeFile fs script_path (render_script us s), script_path)

/-! ## Submission -/

/-- `_get_submit_command` of each backend. -/
def get_submit_command (s : Scheduler) : String :=
  match s.stype with
  | .SLURM => "sbatch " ++ submit_script s
  | .PBS => "qsub " ++ submit_script s
  | .LSF => "bsub < " ++ submit_script s

/-- `_parse_job_id` of each backend, applied to the (already stripped)
submission output.

* SLURM: if `"Submitted batch job"` occurs, return the last
  whitespace-delimited token.
* PBS: for non-empty output, return the prefix before the first `"."`
  when a dot occurs, else the whole output.
* LSF: if `"Job <"` and `">"` both occur, return the slice between the
  first `"<"` and the first `">"` of the whole string. -/
def parse_job_id (st : SchedulerType) (output : String) : Option String :=
  match st with
  | .SLURM =>
    if strContains output "Submitted batch job" then
      -- `output.split()[-1]`; the guard makes the token list non-empty.
      match (pySplitWs output).getLast? with
      | some w => some w
      | none => none
    else none
  | .PBS =>
    if !output.isEmpty then
      if strContains output "." then
        some ⟨output.data.takeWhile (fun c => c ≠ '.')⟩
      else some output
    else none
  | .LSF =>
    if strContains output "Job <" && strContains output ">" then
      some (pySlice output (pyIndexOf output.data '<' + 1) (pyIndexOf output.data '>'))
    else none

/-- Outcome of the single blocking `subprocess.run` call. -/
inductive Subproc
  | ok (stdout : String)
  | err (stderr : String)
deriving DecidableEq, Repr

/-- `ArrayScheduler.submit(test)`.  Returns the final file system and
either an error (`ValueError` for an empty batch, `RuntimeError` for a
failed submission command) or an optional job identifier (`None` in test
mode).  After a zero-exit subprocess, `if job_id: return job_id` is a
Python truthiness test, so a `None` *or empty-string* parse result falls
through to `return output` (the raw stripped stdout); `truthyStr` models
this. -/
def submit (us : UserSettings) (s : Scheduler) (test : Bool)
    (sp : Subproc) (fs : FS) : FS × Except String (Option String) :=
  if s.num_jobs = 0 then
    (fs, .error ("Cannot submit " ++ NAME s.stype ++ " array with no jobs"))
  else
    let fs' := write_script_action us s fs
    if test then (fs', .ok none)
    else
      match sp with
      | .ok stdout =>
        let output := pyStrip stdout
        let job_id := parse_job_id s.stype output
        if truthyStr job_id then (fs', .ok (some (job_id.getD "")))
        else (fs', .ok (some output))
      | .err stderr =>
        (fs', .error (NAME s.stype ++ " submission failed: " ++ stderr))

/-! ## Registry factory -/

/-- `ArrayScheduler._REGISTRY`, restricted by `subclasses()` to the
concrete registered classes, in definition order. -/
def registeredTypes : List SchedulerType := [.SLURM, .PBS, .LSF]

/-- `available = [s.NAME for s in schedulers if s.NAME]`. -/
def availableNames : List String := registeredTypes.map NAME

/-- `ArrayScheduler.from_scheduler_type`: linear search of the registry by
`NAME`; construct on a hit, raise `ValueError` listing the available
names otherwise. -/
def from_scheduler_type (scheduler_type : String) (jobs : List Job)
    (server : Server) (max_parallel : Option Int) (job_name : Option String) :
    Except String Scheduler :=
  match registeredTypes.find? (fun st => NAME st = scheduler_type) with
  | some st =>
    .ok { stype := st, jobs := jobs, max_parallel := max_parallel,
          server := server, job_name := job_name }
  | none =>
    .error ("Could not find array scheduler for type: " ++ scheduler_type ++
            ". Available: " ++ pyReprList availableNames)

end Chemsmart

namespace Chemsmart

/-! ## Shared helper facts -/

/-- A concrete server profile used by witness statements. -/
def demoServer : Server :=
  { num_cores := 16, num_gpus := 0, mem_gb := 32, queue_name := none, num_hours := none }

/-- Concrete user settings used by witness statements. -/
def demoSettings : UserSettings := { project := none, email := none }

theorem str_empty_append (s : String) : "" ++ s = s := by
  cases s
  rfl

theorem find_head (e : String × String) (fs : List (String × String)) :
    List.find? (fun x => x.1 = e.1) (e :: fs) = some e := by
  rw [List.find?_cons_of_pos]
  simp

/-! ## Claim theorems -/

/-- Claim C3: for a batch of exactly one job, the SLURM `array_spec` is
`"0-0"`, the PBS `array_spec` is `"0"`, and the LSF `array_spec` is
`"[1]"`, for every `max_parallel`, server and job name. -/
theorem array_spec_single_job (jobs : List Job) (mp : Option Int)
    (srv : Server) (jn : Option String) (h : jobs.length = 1) :
    array_spec { stype := .SLURM, jobs := jobs, max_parallel := mp,
                 server := srv, job_name := jn } = "0-0" ∧
    array_spec { stype := .PBS, jobs := jobs, max_parallel := mp,
                 server := srv, job_name := jn } = "0" ∧
    array_spec { stype := .LSF, jobs := jobs, max_parallel := mp,
                 server := srv, job_name := jn } = "[1]" := by
  simp [array_spec, Scheduler.num_jobs, h]

/-- Witness for C3 at a concrete one-job batch. -/
theorem array_spec_single_job_check :
    array_spec { stype := .SLURM, jobs := [⟨"mol1"⟩], max_parallel := some 4,
                 server := demoServer, job_name := some "b" } = "0-0" ∧
    array_spec { stype := .PBS, jobs := [⟨"mol1"⟩], max_parallel := some 4,
                 server := demoServer, job_name := some "b" } = "0" ∧
    array_spec { stype := .LSF, jobs := [⟨"mol1"⟩], max_parallel := some 4,
                 server := demoServer, job_name := some "b" } = "[1]" :=
  array_spec_single_job [⟨"mol1"⟩] (some 4) demoServer (some "b") rfl

/-- Claim C2: `submit` with an empty job list fails with the
`Cannot submit ... array with no jobs` error and leaves the file system
untouched (no script written), for every backend, mode and subprocess
outcome; and `array_spec` with zero jobs is the empty string for every
backend. -/
theorem submit_empty_batch (us : UserSettings) (s : Scheduler) (test : Bool)
    (sp : Subproc) (fs : FS) (h : s.jobs = []) :
    submit us s test sp fs =
      (fs, .error ("Cannot submit " ++ NAME s.stype ++ " array with no jobs")) ∧
    array_spec s = "" := by
  constructor
  · simp [submit, Scheduler.num_jobs, h]
  · obtain ⟨st, jobs, mp, srv, jn⟩ := s
    cases h
    cases st <;> simp [array_spec, Scheduler.num_jobs]

/-- Witness for C2 at a concrete empty SLURM batch in live mode. -/
theorem submit_empty_batch_check :
    submit demoSettings
        { stype := .SLURM, jobs := [], max_parallel := none,
          server := demoServer, job_name := none } false (.ok "out") [] =
      ([], .error "Cannot submit SLURM array with no jobs") ∧
    array_spec { stype := .SLURM, jobs := [], max_parallel := none,
                 server := demoServer, job_name := none } = "" :=
  submit_empty_batch demoSettings _ false (.ok "out") [] rfl

/-- Claim C6: in live mode with a non-empty batch, a zero-exit submission
subprocess makes `submit` return an `ok (some _)` value (never an error
and never an absent identifier): the parsed job id when the backend
parser yields an identifier (a non-empty one — `if job_id:` is a Python
truthiness test), and otherwise — parser yields `None` or the empty
string — the raw stripped stdout as the fallback identifier. -/
theorem submit_live_success (us : UserSettings) (s : Scheduler)
    (stdout : String) (fs : FS) (h : s.jobs ≠ []) :
    submit us s false (.ok stdout) fs =
      (write_script_action us s fs,
       if truthyStr (parse_job_id s.stype (pyStrip stdout)) then
         .ok (some ((parse_job_id s.stype (pyStrip stdout)).getD ""))
       else .ok (some (pyStrip stdout))) ∧
    (∀ id, parse_job_id s.stype (pyStrip stdout) = some id → ¬ id = "" →
      (submit us s false (.ok stdout) fs).2 = .ok (some id)) ∧
    (parse_job_id s.stype (pyStrip stdout) = none →
      (submit us s false (.ok stdout) fs).2 = .ok (some (pyStrip stdout))) := by
  have h0 : ¬ s.num_jobs = 0 := by
    simpa [Scheduler.num_jobs] using h
  refine ⟨?_, ?_, ?_⟩
  · cases htr : truthyStr (parse_job_id s.stype (pyStrip stdout)) <;>
      simp [submit, h0, htr]
  · intro id hid hne
    have htr : truthyStr (some id) = true := by
      show (!id.isEmpty) = true
      simp only [Bool.not_eq_true']
      exact Bool.eq_false_iff.2 fun hc => hne ((String.isEmpty_iff id).1 hc)
    simp [submit, h0, hid, htr]
  · intro hp
    simp [submit, h0, hp, truthyStr]

/-- Witness for C6: a SLURM stdout matching the id pattern returns the
parsed id; an LSF stdout with no pattern returns the raw stripped stdout;
and a PBS stdout of `"."` — whose parse result is the *empty* string —
also falls back to the raw stripped stdout. -/
theorem submit_live_success_check :
    (submit demoSettings
        { stype := .SLURM, jobs := [⟨"a"⟩], max_parallel := none,
          server := demoServer, job_name := none } false
        (.ok "Submitted batch job 777\n") []).2 = .ok (some "777") ∧
    (submit demoSettings
        { stype := .LSF, jobs := [⟨"a"⟩], max_parallel := none,
          server := demoServer, job_name := none } false
        (.ok " accepted without id pattern ") []).2 =
      .ok (some "accepted without id pattern") ∧
    (submit demoSettings
        { stype := .PBS, jobs := [⟨"a"⟩], max_parallel := none,
          server := demoServer, job_name := none } false
        (.ok ".") []).2 = .ok (some ".") := by
  refine ⟨?_, ?_, ?_⟩
  · exact (submit_live_success demoSettings _ "Submitted batch job 777\n" []
      (by simp)).2.1 "777" (by decide) (by decide)
  · exact (submit_live_success demoSettings _ " accepted without id pattern " []
      (by simp)).2.2 (by decide)
  · exact ((congrArg Prod.snd
      ((submit_live_success demoSettings _ "." [] (by simp)).1)).trans (by rfl))

/-- Claim C8: for every backend, state and target directory, writing the
script with `write_script` and reading the written file back yields
exactly the in-memory output of `render_script`. -/
theorem write_script_roundtrip (us : UserSettings) (s : Scheduler)
    (directory : Option String) (fs : FS) :
    readFile (write_script us s directory fs).1 (write_script us s directory fs).2 =
      some (render_script us s) := by
  cases directory <;> simp [write_script, writeFile, readFile, find_head]

/-- Claim C10: the script content produced by the internal writer of `submit`
(`_write_script`, modelled by `write_script_action`) is identical to the
string produced by `render_script`, for every backend and state. -/
theorem internal_writer_matches_render (us : UserSettings) (s : Scheduler)
    (fs : FS) :
    readFile (write_script_action us s fs) (submit_script s) =
      some (render_script us s) := by
  simp [write_script_action, writeFile, readFile, find_head,
    write_script_content, render_script, str_empty_append]

end Chemsmart

namespace Chemsmart

/-- Claim C9: for every backend and state, the rendered script contains the
`JOBS=( ... )` table whose body is exactly the per-job quoted entries, one
per job, in input order; the entry list has exactly `num_jobs` elements and
its `i`-th element is the quoting of the `i`-th label. -/
theorem job_table_entries (us : UserSettings) (s : Scheduler) :
    (∃ pre post, render_script us s =
        pre ++ ("# Job labels array\n" ++ "JOBS=(\n" ++
                String.join (s.job_labels.map jobEntry) ++ ")\n\n") ++ post) ∧
    (s.job_labels.map jobEntry).length = s.num_jobs ∧
    ∀ i : Nat, (s.job_labels.map jobEntry)[i]? = (s.job_labels[i]?).map jobEntry := by
  refine ⟨⟨bash_header ++ scheduler_options us s ++ change_to_job_directory s.stype,
          job_selection s.stype ++ job_execution, ?_⟩, ?_, ?_⟩
  · simp [render_script, job_array_mapping, String.append_assoc]
  · simp [Scheduler.num_jobs, Scheduler.job_labels]
  · intro i
    simp

set_option maxRecDepth 8192 in
theorem lsf_selection_no_raw_index :
    strContains (job_selection .LSF) "JOBS[$LSB_JOBINDEX" = false := by
  decide

/-- Claim C4: for every LSF scheduler state with a non-empty job list, the
rendered script contains the literal index-adjustment line
`JOB_INDEX=$(( $LSB_JOBINDEX - 1 ))` immediately followed by the job-table
lookup through `JOB_INDEX`; and the LSF job-selection block never indexes
`JOBS` with the raw `LSB_JOBINDEX` variable. -/
theorem lsf_index_adjustment (us : UserSettings) (s : Scheduler)
    (hst : s.stype = .LSF) (hj : s.jobs ≠ []) :
    (∃ pre post, render_script us s =
        pre ++ ("JOB_INDEX=$(( $LSB_JOBINDEX - 1 ))\n" ++
                "JOB_LABEL=$\x7bJOBS[$JOB_INDEX]\x7d\n") ++ post) ∧
    strContains (job_selection .LSF) "JOBS[$LSB_JOBINDEX" = false := by
  refine ⟨⟨bash_header ++ scheduler_options us s ++ change_to_job_directory s.stype ++
          job_array_mapping s ++ "# Get current job label (LSF is 1-indexed)\n",
          "echo \"Running job: $JOB_LABEL (array task $LSB_JOBINDEX)\"\n\n" ++
          job_execution, ?_⟩, lsf_selection_no_raw_index⟩
  rw [hst]
  simp only [render_script, job_selection, hst, String.append_assoc]

/-- Witness for C4 at a concrete two-job LSF batch. -/
theorem lsf_index_adjustment_check :
    (∃ pre post,
        render_script demoSettings
          { stype := .LSF, jobs := [⟨"a"⟩, ⟨"b"⟩], max_parallel := none,
            server := demoServer, job_name := some "lsfdemo" } =
        pre ++ ("JOB_INDEX=$(( $LSB_JOBINDEX - 1 ))\n" ++
                "JOB_LABEL=$\x7bJOBS[$JOB_INDEX]\x7d\n") ++ post) ∧
    strContains (job_selection .LSF) "JOBS[$LSB_JOBINDEX" = false :=
  lsf_index_adjustment demoSettings _ rfl (by simp)

/-- Claim C7: resolving each registered family name through
`from_scheduler_type` yields an instance whose `NAME` equals the requested
name, and resolving any unregistered name yields the `ValueError` message
listing the three known family names. -/
theorem registry_resolution (jobs : List Job) (srv : Server)
    (mp : Option Int) (jn : Option String) :
    (∀ st : SchedulerType, ∃ s,
        from_scheduler_type (NAME st) jobs srv mp jn = .ok s ∧
        NAME s.stype = NAME st) ∧
    (∀ name : String, name ∉ availableNames →
        from_scheduler_type name jobs srv mp jn =
          .error ("Could not find array scheduler for type: " ++ name ++
                  ". Available: " ++ "[\x27SLURM\x27, \x27PBS\x27, \x27LSF\x27]")) := by
  constructor
  · intro st
    cases st <;> exact ⟨_, rfl, rfl⟩
  · intro name hname
    simp only [availableNames, registeredTypes, List.map, NAME,
      List.mem_cons, List.not_mem_nil, or_false, not_or] at hname
    obtain ⟨h1, h2, h3⟩ := hname
    have hfind : List.find? (fun st => NAME st = name) registeredTypes = none := by
      rw [List.find?_eq_none]
      intro st hst
      cases st <;> simp [NAME] <;>
        [exact Ne.symm h1; exact Ne.symm h2; exact Ne.symm h3]
    have hrepr : pyReprList availableNames =
        "[\x27SLURM\x27, \x27PBS\x27, \x27LSF\x27]" := by decide
    unfold from_scheduler_type
    rw [hfind, hrepr]

/-- Witness for C7: the registered name `"SLURM"` resolves to a SLURM
instance and the unregistered name `"SGE"` produces the enumerating
error. -/
theorem registry_resolution_check :
    (∃ s, from_scheduler_type "SLURM" [] demoServer none none = .ok s ∧
          NAME s.stype = "SLURM") ∧
    from_scheduler_type "SGE" [] demoServer none none =
      .error ("Could not find array scheduler for type: " ++ "SGE" ++
              ". Available: " ++ "[\x27SLURM\x27, \x27PBS\x27, \x27LSF\x27]") := by
  constructor
  · exact (registry_resolution [] demoServer none none).1 .SLURM
  · exact (registry_resolution [] demoServer none none).2 "SGE" (by decide)

end Chemsmart

namespace Chemsmart

/-- The base (unthrottled) array range of a backend for `n ≥ 2` jobs, as the
spec describes it: `0-{n-1}` for SLURM/PBS, `[1-{n}]` for LSF. -/
def base_range : SchedulerType → Nat → String
  | .SLURM, n => "0-" ++ toString (n - 1)
  | .PBS, n => "0-" ++ toString (n - 1)
  | .LSF, n => "[1-" ++ toString n ++ "]"

/-- The throttle suffix actually produced by the code for `n` jobs: present
exactly when `max_parallel` is set to a nonzero value below `n` (Python
truthiness makes `max_parallel = 0` behave like unset). -/
def throttle_suffix (mp : Option Int) (n : Nat) : String :=
  match mp with
  | none => ""
  | some m => if m ≠ 0 ∧ m < (n : Int) then "%" ++ toString m else ""

/-- Counterexample to claim C1 as stated: with `n = 2` jobs and
`max_parallel` set to `0` (which is `< n`), the claim demands the throttle
suffix `%0` (spec `"0-1%0"`), but the SLURM backend returns `"0-1"` with no
suffix, because `if self.max_parallel and ...` treats `0` as falsy. -/
theorem array_spec_zero_cap_no_suffix :
    array_spec { stype := .SLURM, jobs := [⟨"a"⟩, ⟨"b"⟩], max_parallel := some 0,
                 server := demoServer, job_name := none } = "0-1" ∧
    "0-1" ≠ "0-1%0" := by
  constructor
  · rfl
  · decide

/-- Claim C1 (amended): for every backend with `n ≥ 2` jobs, `array_spec`
is the base range of the backend followed by the throttle suffix
`%{max_parallel}` exactly when `max_parallel` is set to a *nonzero* value
with `max_parallel < n`; it carries no suffix when `max_parallel` is unset,
zero, or `≥ n`. -/
theorem array_spec_throttle (s : Scheduler) (h : 2 ≤ s.num_jobs) :
    array_spec s =
      base_range s.stype s.num_jobs ++ throttle_suffix s.max_parallel s.num_jobs := by
  obtain ⟨st, jobs, mp, srv, jn⟩ := s
  simp only [Scheduler.num_jobs] at h ⊢
  have h0 : ¬ jobs.length = 0 := by omega
  have h1 : ¬ jobs.length = 1 := by omega
  have fold : ∀ t : String, ("]%" : String) ++ t = "]" ++ ("%" ++ t) := by
    have hlit : ("]" : String) ++ "%" = "]%" := by decide
    intro t
    rw [← hlit, String.append_assoc]
  cases st <;> cases mp <;>
    simp [array_spec, base_range, throttle_suffix, truthyInt,
      Scheduler.num_jobs, h0, h1] <;>
    split_ifs <;>
    simp [String.append_assoc, fold]

/-- Witness for C1 (amended): five jobs with `max_parallel = 3` gives
`"0-4%3"` on SLURM. -/
theorem array_spec_throttle_check :
    array_spec { stype := .SLURM,
                 jobs := [⟨"a"⟩, ⟨"b"⟩, ⟨"c"⟩, ⟨"d"⟩, ⟨"e"⟩],
                 max_parallel := some 3, server := demoServer,
                 job_name := none } =
      base_range .SLURM 5 ++ throttle_suffix (some 3) 5 :=
  array_spec_throttle _ (by simp [Scheduler.num_jobs])

end Chemsmart

namespace Chemsmart

theorem subList_of_append (a n b : List Char) : subList (a ++ (n ++ b)) n = true := by
  simp only [subList, List.any_eq_true, List.mem_tails]
  refine ⟨n ++ b, List.suffix_append a (n ++ b), ?_⟩
  simp [ List.isPrefixOf_iff_prefix]

theorem findIdx_append_of_not (p : Char → Bool) (l r : List Char)
    (h : ∀ x ∈ l, p x = false) :
    (l ++ r).findIdx p = l.length + r.findIdx p := by
  induction l with
  | nil => simp
  | cons a t ih =>
    have ha : p a = false := h a (List.mem_cons_self a t)
    have iht := ih (fun x hx => h x (List.mem_cons_of_mem a hx))
    simp [List.findIdx_cons, ha, iht]
    omega

theorem findIdx_marker (l rest : List Char) (c : Char)
    (h : ∀ x ∈ l, ¬ x = c) :
    (l ++ c :: rest).findIdx (fun x => x = c) = l.length := by
  rw [findIdx_append_of_not]
  · simp [List.findIdx_cons]
  · intro x hx
    simp [h x hx]

theorem drop_append_cons (A : List Char) (c : Char) (r : List Char) :
    (A ++ c :: r).drop (A.length + 1) = r := by
  have h1 : A ++ c :: r = (A ++ [c]) ++ r := by simp
  have h2 : A.length + 1 = (A ++ [c]).length := by simp
  rw [h1, h2]
  exact List.drop_left _ _

set_option maxRecDepth 8192 in
/-- Counterexample to claim C5 as stated: on the stdout
`"a<b> Job <42> ok"`, the claimed behaviour (find `Job <`, then the
following `>`, return what is between them) would yield `"42"`, but the
code takes the substring between the *first* `<` and the *first* `>` of
the whole string (`output.index("<")` / `output.index(">")`) and returns
`"b"`. -/
theorem lsf_parse_first_angle :
    parse_job_id .LSF "a<b> Job <42> ok" = some "b" ∧ ("b" : String) ≠ "42" := by
  constructor
  · decide
  · decide

/-- Claim C5 (amended): the LSF job-id parser requires both `"Job <"` and
`">"` to occur and then returns the substring between the *first* `<` and
the *first* `>` of the whole stdout.  On well-formed `bsub` output — no
angle bracket before the `"Job <"` marker and none inside the id — this is
exactly the substring between `"Job <"` and the following `">"`; when the
pattern is absent (no `"Job <"` or no `">"`), it returns nothing. -/
theorem lsf_parse_wellformed (pre id post : String)
    (h1 : '<' ∉ pre.data) (h2 : '>' ∉ pre.data) (h3 : '>' ∉ id.data) :
    parse_job_id .LSF (pre ++ "Job <" ++ id ++ ">" ++ post) = some id ∧
    (∀ out : String, strContains out "Job <" = false →
      parse_job_id .LSF out = none) ∧
    (∀ out : String, strContains out ">" = false →
      parse_job_id .LSF out = none) := by
  refine ⟨?_, ?_, ?_⟩
  · have hd : (pre ++ "Job <" ++ id ++ ">" ++ post).data =
        pre.data ++ ("Job <".data ++ (id.data ++ (">".data ++ post.data))) := by
      simp [String.data_append]
    have g1 : strContains (pre ++ "Job <" ++ id ++ ">" ++ post) "Job <" = true := by
      rw [strContains, hd]
      exact subList_of_append _ _ _
    have e2 : (pre ++ "Job <" ++ id ++ ">" ++ post).data =
        ((pre.data ++ "Job <".data) ++ id.data) ++ (">".data ++ post.data) := by
      rw [hd]
      simp [List.append_assoc]
    have g2 : strContains (pre ++ "Job <" ++ id ++ ">" ++ post) ">" = true := by
      rw [strContains, e2]
      exact subList_of_append _ _ _
    have e1 : (pre ++ "Job <" ++ id ++ ">" ++ post).data =
        (pre.data ++ "Job ".data) ++
          ('<' :: (id.data ++ (">".data ++ post.data))) := by
      rw [hd, List.append_assoc]
      rfl
    have i1 : pyIndexOf (pre ++ "Job <" ++ id ++ ">" ++ post).data '<' =
        (pre.data ++ "Job ".data).length := by
      rw [pyIndexOf, e1]
      apply findIdx_marker
      intro x hx
      rcases List.mem_append.1 hx with hx | hx
      · exact fun hc => h1 (hc ▸ hx)
      · have hx' : x ∈ ['J', 'o', 'b', ' '] := hx
        fin_cases hx' <;> decide
    have e2' : (pre ++ "Job <" ++ id ++ ">" ++ post).data =
        ((pre.data ++ "Job <".data) ++ id.data) ++ ('>' :: post.data) := by
      rw [e2]
      rfl
    have i2 : pyIndexOf (pre ++ "Job <" ++ id ++ ">" ++ post).data '>' =
        ((pre.data ++ "Job <".data) ++ id.data).length := by
      rw [pyIndexOf, e2']
      apply findIdx_marker
      intro x hx
      rcases List.mem_append.1 hx with hx | hx
      · rcases List.mem_append.1 hx with hx | hx
        · exact fun hc => h2 (hc ▸ hx)
        · have hx' : x ∈ ['J', 'o', 'b', ' ', '<'] := hx
          fin_cases hx' <;> decide
      · exact fun hc => h3 (hc ▸ hx)
    have eB : (pre.data ++ "Job <".data) ++ id.data =
        (pre.data ++ "Job ".data) ++ ('<' :: id.data) := by
      rw [List.append_assoc, List.append_assoc]
      rfl
    have sl : pySlice (pre ++ "Job <" ++ id ++ ">" ++ post)
        ((pre.data ++ "Job ".data).length + 1)
        (((pre.data ++ "Job <".data) ++ id.data).length) = id := by
      rw [pySlice, e2']
      rw [List.take_left]
      rw [eB, drop_append_cons]
    simp only [parse_job_id, g1, g2, Bool.and_self, if_true]
    rw [i1, i2, sl]
  · intro out hout
    simp [parse_job_id, hout]
  · intro out hout
    simp [parse_job_id, hout]

set_option maxRecDepth 8192 in
/-- Witness for C5 (amended) on a realistic `bsub` stdout
`"INFO: Job <12345> is submitted to queue <normal>."`. -/
theorem lsf_parse_wellformed_check :
    parse_job_id .LSF
        ("INFO: " ++ "Job <" ++ "12345" ++ ">" ++ " is submitted to queue <normal>.") =
      some "12345" ∧
    (∀ out : String, strContains out "Job <" = false →
      parse_job_id .LSF out = none) ∧
    (∀ out : String, strContains out ">" = false →
      parse_job_id .LSF out = none) :=
  lsf_parse_wellformed "INFO: " "12345" " is submitted to queue <normal>."
    (by decide) (by decide) (by decide)

end Chemsmart
